import Mathlib

/-!
Shallow embedding of the tenant / subscription / payment lifecycle of the
Team SaaS platform (Django application under `src/apps/`).

Conventions of the embedding:
* status fields are the exact strings used by the source
  (`models.CharField` with string choices);
* `timezone.now()` is an explicit `now : Int` parameter, measured in days,
  so `timedelta(days = n)` becomes `+ n`;
* database rows are Lean structures; a `save()` is a functional update;
* a Django view is a function returning `Option ApiError × State`: `none`
  means the view answered with `success`, `some e` that it answered with the
  corresponding 4xx/5xx error body; the returned state is the database state
  after the request (views check their guards before writing, so on a guard
  error the state comes back unchanged, while an exception raised after a
  write leaves that write in place — there is no `transaction.atomic` in any
  of the embedded views);
* user ids are `Nat`; `DecimalField` counters are embedded as `Int`
  (only their ordering is ever consulted).
-/

/-- Error bodies the embedded views can answer with (HTTP 4xx/5xx). -/
inductive ApiError where
  | NotPending
  | MissingReason
  | InvalidTransition
  | LimitExceeded
  | ServerError
  deriving DecidableEq, Repr

/-- `apps.tenants.models.Tenant` — the fields the lifecycle touches. -/
structure Tenant where
  name : String
  slug : String
  status : String
  is_approved : Bool
  approved_at : Option Int
  approved_by : Option Nat
  subscription : Option Nat
  max_users : Int
  max_teams : Int
  max_projects : Int
  max_storage_gb : Int
  current_users_count : Int
  current_teams_count : Int
  current_projects_count : Int
  current_storage_gb : Int
  notes : Option String
  deriving DecidableEq, Repr

/-- Field defaults of the `Tenant` model (`models.py`): `status='PENDING'`,
`is_approved=False`, limits 10/5/10/10, counters 0, nullable fields null. -/
def Tenant.mkDefault (name slug : String) : Tenant where
  name := name
  slug := slug
  status := "PENDING"
  is_approved := false
  approved_at := none
  approved_by := none
  subscription := none
  max_users := 10
  max_teams := 5
  max_projects := 10
  max_storage_gb := 10
  current_users_count := 0
  current_teams_count := 0
  current_projects_count := 0
  current_storage_gb := 0
  notes := none

/-- `Tenant.approve` (`tenants/models.py`): unconditionally sets
`is_approved`, `status='ACTIVE'` and the approval stamps. -/
def Tenant.approve (t : Tenant) (approved_by_user : Nat) (now : Int) : Tenant :=
  { t with is_approved := true, status := "ACTIVE",
           approved_at := some now, approved_by := some approved_by_user }

/-- `Tenant.suspend` (`tenants/models.py`): sets `status='SUSPENDED'` with no
guard on the current status; a truthy `reason` is appended to `notes`. -/
def Tenant.suspend (t : Tenant) (reason : Option String) : Tenant :=
  let t := { t with status := "SUSPENDED" }
  match reason with
  | none => t
  | some r =>
      if r = "" then t
      else
        { t with notes :=
            match t.notes with
            | some n => some (n ++ "\n\nSuspended: " ++ r)
            | none => some ("Suspended: " ++ r) }

/-- Result of `Tenant.check_limits`: one flag per resource. -/
structure Limits where
  users : Bool
  teams : Bool
  projects : Bool
  storage : Bool
  deriving DecidableEq, Repr

/-- `Tenant.check_limits` (`tenants/models.py`): each flag is
`current >= max` for that resource; no state is modified. -/
def Tenant.check_limits (t : Tenant) : Limits where
  users := t.current_users_count ≥ t.max_users
  teams := t.current_teams_count ≥ t.max_teams
  projects := t.current_projects_count ≥ t.max_projects
  storage := t.current_storage_gb ≥ t.max_storage_gb

/-- `apps.subscriptions.models.Plan` — the fields the lifecycle reads. -/
structure Plan where
  billing_interval : String
  trial_days : Int
  max_users : Int
  max_teams : Int
  max_projects : Int
  max_storage_gb : Int
  deriving DecidableEq, Repr

/-- `apps.subscriptions.models.Subscription`. -/
structure Subscription where
  tenant_id : Nat
  plan_id : Nat
  status : String
  current_period_start : Int
  current_period_end : Int
  auto_renew : Bool
  cancel_at_period_end : Bool
  cancelled_at : Option Int
  trial_start : Option Int
  trial_end : Option Int
  deriving DecidableEq, Repr

/-- `Subscription.cancel` (`subscriptions/models.py`): always stamps
`cancelled_at = now`; `immediately` chooses between `status='CANCELLED'`
and `cancel_at_period_end=True`. -/
def Subscription.cancel (s : Subscription) (immediately : Bool) (now : Int) :
    Subscription :=
  let s := { s with cancelled_at := some now }
  if immediately then { s with status := "CANCELLED" }
  else { s with cancel_at_period_end := true }

/-- `apps.subscriptions.models.Payment` — the verification-relevant fields. -/
structure Payment where
  subscription_id : Nat
  tenant_id : Nat
  amount : Int
  payment_method : String
  status : String
  verification_status : String
  verified_by : Option Nat
  verified_at : Option Int
  verification_notes : Option String
  paid_at : Option Int
  deriving DecidableEq, Repr

/-- `Payment.approve_verification` (`subscriptions/models.py`): sets
`verification_status='APPROVED'`, `status='COMPLETED'`, stamps
`verified_by/verified_at/paid_at`; records truthy notes. No guard. -/
def Payment.approve_verification (p : Payment) (verified_by_user : Nat)
    (notes : String) (now : Int) : Payment :=
  let p := { p with verification_status := "APPROVED", status := "COMPLETED",
                    verified_by := some verified_by_user,
                    verified_at := some now, paid_at := some now }
  if notes = "" then p else { p with verification_notes := some notes }

/-- `Payment.reject_verification` (`subscriptions/models.py`): sets
`verification_status='REJECTED'`, `status='FAILED'`, stamps
`verified_by/verified_at`; records truthy notes. No guard. -/
def Payment.reject_verification (p : Payment) (verified_by_user : Nat)
    (notes : String) (now : Int) : Payment :=
  let p := { p with verification_status := "REJECTED", status := "FAILED",
                    verified_by := some verified_by_user,
                    verified_at := some now }
  if notes = "" then p else { p with verification_notes := some notes }

/-- The three rows a payment-verification request can touch: the payment,
its owning tenant and its owning subscription. -/
structure VerifyState where
  payment : Payment
  tenant : Tenant
  subscription : Subscription
  deriving DecidableEq, Repr

/-- `apps.admin_panel.views.approve_payment`: guard
`verification_status != 'PENDING'` → 400 before any write; otherwise
`approve_verification`, auto-approval of a still-`PENDING` tenant, and
activation of a non-`ACTIVE` subscription. -/
def approve_payment (st : VerifyState) (user : Nat) (notes : String)
    (now : Int) : Option ApiError × VerifyState :=
  if st.payment.verification_status ≠ "PENDING" then (some .NotPending, st)
  else
    let p := st.payment.approve_verification user notes now
    let t :=
      if st.tenant.status = "PENDING" then
        { st.tenant with status := "ACTIVE", is_approved := true,
                         approved_at := some now, approved_by := some user }
      else st.tenant
    let s :=
      if st.subscription.status ≠ "ACTIVE" then
        { st.subscription with status := "ACTIVE" }
      else st.subscription
    (none, ⟨p, t, s⟩)

/-- `apps.admin_panel.views.reject_payment`: same `PENDING` guard, then
`notes` must be non-empty (`'Rejection reason is required'`); on success only
the payment is written — tenant and subscription are never touched. -/
def reject_payment (st : VerifyState) (user : Nat) (notes : String)
    (now : Int) : Option ApiError × VerifyState :=
  if st.payment.verification_status ≠ "PENDING" then (some .NotPending, st)
  else if notes = "" then (some .MissingReason, st)
  else (none, { st with payment := st.payment.reject_verification user notes now })

/-- `PaymentViewSet.verify` (`subscriptions/views.py`): the REST entry point.
`PaymentVerificationSerializer` only constrains `action` to
`approve`/`reject` and allows blank `notes`; the view itself performs no
check of `verification_status`. On `approve` it runs `approve_verification`
and activates a non-`ACTIVE` subscription, never touching the tenant; on
`reject` it runs `reject_verification` with whatever notes were sent. -/
def paymentViewSet_verify (st : VerifyState) (user : Nat)
    (action_type : String) (notes : String) (now : Int) :
    Option ApiError × VerifyState :=
  if action_type = "approve" then
    let p := st.payment.approve_verification user notes now
    let s :=
      if st.subscription.status ≠ "ACTIVE" then
        { st.subscription with status := "ACTIVE" }
      else st.subscription
    (none, { st with payment := p, subscription := s })
  else
    (none, { st with payment := st.payment.reject_verification user notes now })

/-- `TenantViewSet.suspend` (`tenants/views.py`): validates that a `reason`
string is present (`TenantSuspendSerializer`, `required=True`, blank
rejected) and then calls `Tenant.suspend` — there is no status guard on this
path. -/
def tenantViewSet_suspend (t : Tenant) (reason : String) : Tenant :=
  Tenant.suspend t (some reason)

/-- `apps.admin_panel.views.toggle_tenant_status`: flips
`ACTIVE ↔ SUSPENDED`; any other status (`PENDING`, `CANCELLED`) is rejected
with 400 `'Cannot toggle status for pending tenants'` and nothing is
written. -/
def toggle_tenant_status (t : Tenant) : Option ApiError × Tenant :=
  if t.status = "ACTIVE" then (none, { t with status := "SUSPENDED" })
  else if t.status = "SUSPENDED" then (none, { t with status := "ACTIVE" })
  else (some .InvalidTransition, t)

/-- `SubscriptionViewSet.create` (`subscriptions/views.py`): the new
subscription row plus the rewritten tenant row. `current_period_end` is
`now + 30/90/365` days by `billing_interval` (the `else` arm of the source
is the `YEARLY` case); status is `TRIAL` iff `plan.trial_days > 0`; the
tenant receives the new subscription pointer and a snapshot of the plan's
limits. -/
def subscriptionViewSet_create (tenant : Tenant) (plan : Plan)
    (tenant_id plan_id sub_id : Nat) (auto_renew : Bool) (now : Int) :
    Subscription × Tenant :=
  let period_end :=
    if plan.billing_interval = "MONTHLY" then now + 30
    else if plan.billing_interval = "QUARTERLY" then now + 90
    else now + 365
  let subscription : Subscription :=
    { tenant_id := tenant_id
      plan_id := plan_id
      status := if plan.trial_days > 0 then "TRIAL" else "ACTIVE"
      current_period_start := now
      current_period_end := period_end
      auto_renew := auto_renew
      cancel_at_period_end := false
      cancelled_at := none
      trial_start := if plan.trial_days > 0 then some now else none
      trial_end := if plan.trial_days > 0 then some (now + plan.trial_days) else none }
  let tenant :=
    { tenant with subscription := some sub_id
                  max_users := plan.max_users
                  max_teams := plan.max_teams
                  max_projects := plan.max_projects
                  max_storage_gb := plan.max_storage_gb }
  (subscription, tenant)

/-- `SubscriptionViewSet.renew` (`subscriptions/views.py`): recomputes the
period window from `now` with the same interval arithmetic and sets
`status='ACTIVE'` unconditionally — `cancel_at_period_end` is neither
consulted nor cleared. -/
def subscriptionViewSet_renew (s : Subscription) (plan : Plan) (now : Int) :
    Subscription :=
  let period_end :=
    if plan.billing_interval = "MONTHLY" then now + 30
    else if plan.billing_interval = "QUARTERLY" then now + 90
    else now + 365
  { s with current_period_start := now
           current_period_end := period_end
           status := "ACTIVE" }

/-- One activity-log row (`apps.core.models.ActivityLog`), reduced to its
description. -/
structure TeamDb where
  tenant : Tenant
  teams_created : Int
  logs : List String
  deriving DecidableEq, Repr

/-- `apps.core.utils.log_activity` embedded over an explicit log sink:
`ActivityLog.objects.create` either succeeds (`sinkOk = true`) or raises.
The source wraps nothing in try/except — a failing create propagates to the
caller. -/
def log_activity (sinkOk : Bool) (logs : List String) (description : String) :
    Option (List String) :=
  if sinkOk then some (logs ++ [description]) else none

/-- How a `TeamViewSet.create` request ends: a 201 with the team, the 403
limit rejection, or an unhandled exception surfacing as a 500. -/
inductive CreateOutcome where
  | Created
  | LimitRejected
  | ServerError
  deriving DecidableEq, Repr

/-- `TeamViewSet.create` (`teams/views.py`): rejects with 403 when
`current_teams_count >= max_teams` before writing anything; otherwise saves
the team, increments the tenant counter, and finally calls `log_activity`
with no exception handling and no enclosing transaction — a failing log
write turns the request into a 500 after the team and counter writes have
already been committed. -/
def teamViewSet_create (db : TeamDb) (sinkOk : Bool) :
    CreateOutcome × TeamDb :=
  if db.tenant.current_teams_count ≥ db.tenant.max_teams then
    (.LimitRejected, db)
  else
    let db :=
      { db with
        teams_created := db.teams_created + 1
        tenant := { db.tenant with
                    current_teams_count := db.tenant.current_teams_count + 1 } }
    match log_activity sinkOk db.logs ("Team created") with
    | some logs => (.Created, { db with logs := logs })
    | none => (.ServerError, db)

/-- The slug-uniquification loop of `TenantCreateSerializer.create`
(`tenants/serializers.py`): `slug = base; counter = 1;
while slug is taken: slug = f"\x7bbase\x7d-\x7bcounter\x7d"; counter += 1`.
The loop is embedded with explicit fuel; `existing.length + 1` rounds are
enough to leave the loop in the source's semantics. -/
def uniqueSlugLoop (base : String) (existing : List String) :
    Nat → String → Nat → String
  | 0, slug, _ => slug
  | fuel + 1, slug, counter =>
      if slug ∈ existing then
        uniqueSlugLoop base existing fuel (base ++ "-" ++ toString counter)
          (counter + 1)
      else slug

/-- Entry point of the slug loop: start at `base` with `counter = 1`. -/
def uniqueSlug (base : String) (existing : List String) : String :=
  uniqueSlugLoop base existing (existing.length + 1) base 1

/-- `TenantCreateSerializer.create` (`tenants/serializers.py`), restricted to
the tenant row it produces: the requested name is slugified to `base`
(given here already slugified), uniquified against the registered slugs,
and the tenant is created with the model's field defaults — `PENDING`,
unapproved. No duplicate-slug error path exists. -/
def tenantCreateSerializer_create (existing : List String)
    (name base : String) : Tenant :=
  Tenant.mkDefault name (uniqueSlug base existing)

/-! Concrete fixtures used to evaluate the embedded operations. -/

/-- A freshly signed-up tenant: model defaults, `PENDING`, unapproved. -/
def tenant0 : Tenant := Tenant.mkDefault "Acme" "acme"

/-- A trial subscription for `tenant0`. -/
def sub0 : Subscription where
  tenant_id := 1
  plan_id := 1
  status := "TRIAL"
  current_period_start := 0
  current_period_end := 30
  auto_renew := true
  cancel_at_period_end := false
  cancelled_at := none
  trial_start := some 0
  trial_end := some 14

/-- A manual payment awaiting verification. -/
def pay0 : Payment where
  subscription_id := 1
  tenant_id := 1
  amount := 49
  payment_method := "MANUAL"
  status := "PENDING"
  verification_status := "PENDING"
  verified_by := none
  verified_at := none
  verification_notes := none
  paid_at := none

/-- Verification state with everything still pending. -/
def st0 : VerifyState := ⟨pay0, tenant0, sub0⟩

/-- Verification state whose payment has already been approved. -/
def stApproved : VerifyState :=
  { st0 with payment :=
      { pay0 with verification_status := "APPROVED", status := "COMPLETED",
                  verified_by := some 3, verified_at := some 1,
                  paid_at := some 1 } }

/-- A monthly plan with a 14-day trial. -/
def plan0 : Plan where
  billing_interval := "MONTHLY"
  trial_days := 14
  max_users := 25
  max_teams := 10
  max_projects := 20
  max_storage_gb := 50

/-- A tenant exactly at its team ceiling (`5 ≥ 5`). -/
def tenantAtLimit : Tenant := { tenant0 with current_teams_count := 5 }

/-- Team database for a tenant at the team ceiling. -/
def dbAtLimit : TeamDb := ⟨tenantAtLimit, 0, []⟩

/-- Team database for a tenant below the team ceiling. -/
def dbUnder : TeamDb := ⟨tenant0, 0, []⟩

/-! Claims. -/

/-- C7: `SubscriptionViewSet.create` computes `current_period_end` as
`now+30` for `MONTHLY`, `now+90` for `QUARTERLY` and `now+365` for `YEARLY`;
the initial status is `TRIAL` exactly when `plan.trial_days > 0` and
`ACTIVE` otherwise; and the plan's four limits are copied onto the owning
tenant's ceiling fields (with the tenant's subscription pointer updated). -/
theorem c7_subscription_create_contract (tenant : Tenant) (plan : Plan)
    (tid pid sid : Nat) (ar : Bool) (now : Int) :
    (plan.billing_interval = "MONTHLY" →
      (subscriptionViewSet_create tenant plan tid pid sid ar now).1.current_period_end = now + 30)
    ∧ (plan.billing_interval = "QUARTERLY" →
      (subscriptionViewSet_create tenant plan tid pid sid ar now).1.current_period_end = now + 90)
    ∧ (plan.billing_interval = "YEARLY" →
      (subscriptionViewSet_create tenant plan tid pid sid ar now).1.current_period_end = now + 365)
    ∧ ((subscriptionViewSet_create tenant plan tid pid sid ar now).1.status = "TRIAL"
        ↔ plan.trial_days > 0)
    ∧ (¬ plan.trial_days > 0 →
      (subscriptionViewSet_create tenant plan tid pid sid ar now).1.status = "ACTIVE")
    ∧ (subscriptionViewSet_create tenant plan tid pid sid ar now).2.max_users = plan.max_users
    ∧ (subscriptionViewSet_create tenant plan tid pid sid ar now).2.max_teams = plan.max_teams
    ∧ (subscriptionViewSet_create tenant plan tid pid sid ar now).2.max_projects = plan.max_projects
    ∧ (subscriptionViewSet_create tenant plan tid pid sid ar now).2.max_storage_gb = plan.max_storage_gb
    ∧ (subscriptionViewSet_create tenant plan tid pid sid ar now).2.subscription = some sid := by
  refine ⟨?_, ?_, ?_, ?_, ?_, ?_, ?_, ?_, ?_, ?_⟩ <;>
    simp [subscriptionViewSet_create] <;> intro h <;> simp [h]

/-- C7 witness: evaluating the contract on the concrete monthly 14-day-trial
plan `plan0` at `now = 0`. -/
theorem c7_witness :
    (subscriptionViewSet_create tenant0 plan0 1 1 2 true 0).1.current_period_end = 30
    ∧ (subscriptionViewSet_create tenant0 plan0 1 1 2 true 0).1.status = "TRIAL"
    ∧ (subscriptionViewSet_create tenant0 plan0 1 1 2 true 0).2.max_teams = 10 := by
  have h := c7_subscription_create_contract tenant0 plan0 1 1 2 true 0
  exact ⟨h.1 rfl, h.2.2.2.1.mpr (by decide), h.2.2.2.2.2.2.1⟩

/-- C8: `SubscriptionViewSet.renew` recomputes
`current_period_start = now` and `current_period_end` from the plan's
billing interval and forces `status = ACTIVE` for every subscription,
leaving `cancel_at_period_end` exactly as it was — a pending deferred
cancellation is not consulted and is silently undone as far as status is
concerned. -/
theorem c8_renew_unconditional (s : Subscription) (plan : Plan) (now : Int) :
    (subscriptionViewSet_renew s plan now).status = "ACTIVE"
    ∧ (subscriptionViewSet_renew s plan now).current_period_start = now
    ∧ (subscriptionViewSet_renew s plan now).current_period_end =
        (if plan.billing_interval = "MONTHLY" then now + 30
         else if plan.billing_interval = "QUARTERLY" then now + 90
         else now + 365)
    ∧ (subscriptionViewSet_renew s plan now).cancel_at_period_end =
        s.cancel_at_period_end := by
  simp [subscriptionViewSet_renew]

/-- C9: `Tenant.check_limits` is a pure read whose flags are each true
exactly when the current counter has reached the corresponding maximum, and
`TeamViewSet.create` run by a tenant member whose team flag is raised is
rejected with the 403 limit error, returning the database unchanged. -/
theorem c9_check_limits_and_team_gate (t : Tenant) (db : TeamDb)
    (sinkOk : Bool) :
    (t.check_limits.users = true ↔ t.current_users_count ≥ t.max_users)
    ∧ (t.check_limits.teams = true ↔ t.current_teams_count ≥ t.max_teams)
    ∧ (t.check_limits.projects = true ↔ t.current_projects_count ≥ t.max_projects)
    ∧ (t.check_limits.storage = true ↔ t.current_storage_gb ≥ t.max_storage_gb)
    ∧ (db.tenant.check_limits.teams = true →
        teamViewSet_create db sinkOk = (.LimitRejected, db)) := by
  refine ⟨by simp [Tenant.check_limits], by simp [Tenant.check_limits],
          by simp [Tenant.check_limits], by simp [Tenant.check_limits], ?_⟩
  intro h
  have hge : db.tenant.current_teams_count ≥ db.tenant.max_teams := by
    simpa [Tenant.check_limits] using h
  simp [teamViewSet_create, hge]

/-- C9 witness: the fixture tenant at its team ceiling has the `teams` flag
raised and its team-creation request is rejected. -/
theorem c9_witness :
    tenantAtLimit.check_limits.teams = true
    ∧ teamViewSet_create dbAtLimit true = (.LimitRejected, dbAtLimit) := by
  have h := c9_check_limits_and_team_gate tenantAtLimit dbAtLimit true
  exact ⟨by decide, h.2.2.2.2 (by decide)⟩

/-- C10: `Subscription.cancel` stamps `cancelled_at = now` in both branches;
`immediately = true` additionally sets `status = CANCELLED`, while
`immediately = false` sets `cancel_at_period_end = true` and leaves the
status unchanged — so `cancelled_at` is non-null after any cancel call,
even a deferred one. -/
theorem c10_cancel_always_stamps (s : Subscription) (now : Int) :
    (s.cancel true now).cancelled_at = some now
    ∧ (s.cancel true now).status = "CANCELLED"
    ∧ (s.cancel false now).cancelled_at = some now
    ∧ (s.cancel false now).cancel_at_period_end = true
    ∧ (s.cancel false now).status = s.status := by
  simp [Subscription.cancel]

/-- C1 counterexample: the claim requires every verification entry point to
fail with `NotPending` on a non-`PENDING` payment, but the REST
`PaymentViewSet.verify` action has no such guard: approving the
already-approved fixture payment succeeds (no error) and re-stamps
`verified_at`. -/
theorem c1_counterexample :
    stApproved.payment.verification_status ≠ "PENDING"
    ∧ (paymentViewSet_verify stApproved 7 "approve" "" 5).1 = none
    ∧ (paymentViewSet_verify stApproved 7 "approve" "" 5).2.payment.verified_at = some 5 := by
  decide

/-- C1 (amended): the `NotPending` guard holds only on the admin-panel
`approve_payment` entry point, where a non-`PENDING` payment makes the view
fail with `NotPending` and leaves payment, tenant and subscription
unchanged; the REST `PaymentViewSet.verify` action performs no pending
check — the same request succeeds there and re-stamps the payment's
verification fields. -/
theorem c1_notpending_guard_admin_only (st : VerifyState) (user : Nat)
    (notes : String) (now : Int)
    (h : st.payment.verification_status ≠ "PENDING") :
    approve_payment st user notes now = (some .NotPending, st)
    ∧ (paymentViewSet_verify st user "approve" notes now).1 = none
    ∧ (paymentViewSet_verify st user "approve" notes now).2.payment.verification_status = "APPROVED"
    ∧ (paymentViewSet_verify st user "approve" notes now).2.payment.verified_at = some now := by
  refine ⟨by simp [approve_payment, h], ?_, ?_, ?_⟩ <;>
    simp [paymentViewSet_verify, Payment.approve_verification] <;>
    split <;> simp

/-- C1 witness: the amended statement evaluated on the approved fixture. -/
theorem c1_witness :
    approve_payment stApproved 7 "" 5 = (some .NotPending, stApproved)
    ∧ (paymentViewSet_verify stApproved 7 "approve" "" 5).1 = none := by
  have h := c1_notpending_guard_admin_only stApproved 7 "" 5 (by decide)
  exact ⟨h.1, h.2.1⟩

/-- C2 counterexample: the claim requires the tenant cascade on every
verification entry point, but approving the all-pending fixture through the
REST `PaymentViewSet.verify` action leaves the owning tenant `PENDING` and
unapproved. -/
theorem c2_counterexample :
    st0.payment.verification_status = "PENDING"
    ∧ st0.tenant.status = "PENDING"
    ∧ (paymentViewSet_verify st0 7 "approve" "ok" 5).1 = none
    ∧ (paymentViewSet_verify st0 7 "approve" "ok" 5).2.payment.verification_status = "APPROVED"
    ∧ (paymentViewSet_verify st0 7 "approve" "ok" 5).2.tenant.status = "PENDING"
    ∧ (paymentViewSet_verify st0 7 "approve" "ok" 5).2.tenant.is_approved = false := by
  decide

/-- C2 (amended): on the admin-panel `approve_payment` entry point the full
cascade holds — the pending payment becomes `APPROVED`/`COMPLETED`, a
`PENDING` tenant becomes `ACTIVE` with `is_approved` and the approval
stamps, and a non-`ACTIVE` subscription is forced to `ACTIVE` — but the REST
`PaymentViewSet.verify` action only activates the subscription and never
modifies the tenant. -/
theorem c2_cascade_admin_only (st : VerifyState) (user : Nat)
    (notes : String) (now : Int)
    (h : st.payment.verification_status = "PENDING") :
    (approve_payment st user notes now).1 = none
    ∧ (approve_payment st user notes now).2.payment.verification_status = "APPROVED"
    ∧ (approve_payment st user notes now).2.payment.status = "COMPLETED"
    ∧ (st.tenant.status = "PENDING" →
        (approve_payment st user notes now).2.tenant.status = "ACTIVE"
        ∧ (approve_payment st user notes now).2.tenant.is_approved = true
        ∧ (approve_payment st user notes now).2.tenant.approved_at = some now
        ∧ (approve_payment st user notes now).2.tenant.approved_by = some user)
    ∧ (st.subscription.status ≠ "ACTIVE" →
        (approve_payment st user notes now).2.subscription.status = "ACTIVE")
    ∧ (paymentViewSet_verify st user "approve" notes now).2.tenant = st.tenant
    ∧ (st.subscription.status ≠ "ACTIVE" →
        (paymentViewSet_verify st user "approve" notes now).2.subscription.status = "ACTIVE") := by
  refine ⟨by simp [approve_payment, h], ?_, ?_, ?_, ?_, ?_, ?_⟩
  · simp [approve_payment, h, Payment.approve_verification]; split <;> simp
  · simp [approve_payment, h, Payment.approve_verification]; split <;> simp
  · intro ht; simp [approve_payment, h, ht]
  · intro hs; simp [approve_payment, h, hs]
  · simp [paymentViewSet_verify]
  · intro hs; simp [paymentViewSet_verify, hs]

/-- C2 witness: the amended statement evaluated on the all-pending fixture:
the admin entry point activates tenant and subscription. -/
theorem c2_witness :
    (approve_payment st0 7 "ok" 5).1 = none
    ∧ (approve_payment st0 7 "ok" 5).2.tenant.status = "ACTIVE"
    ∧ (approve_payment st0 7 "ok" 5).2.tenant.is_approved = true
    ∧ (approve_payment st0 7 "ok" 5).2.subscription.status = "ACTIVE" := by
  have h := c2_cascade_admin_only st0 7 "ok" 5 rfl
  exact ⟨h.1, (h.2.2.2.1 rfl).1, (h.2.2.2.1 rfl).2.1, h.2.2.2.2.1 (by decide)⟩

/-- C3 counterexample: the claim says a failing activity-log write never
surfaces an error to the caller, but `TeamViewSet.create` on the
under-limit fixture with a failing log sink answers with a server error
(the exception from `log_activity` propagates), not with `Created`. -/
theorem c3_counterexample :
    (teamViewSet_create dbUnder false).1 = CreateOutcome.ServerError
    ∧ (teamViewSet_create dbUnder false).1 ≠ CreateOutcome.Created
    ∧ (teamViewSet_create dbUnder false).2.teams_created = 1 := by
  decide

/-- C3 (amended): neither `log_activity` nor its call sites handle
exceptions, so a failing activity-log write propagates and fails the
triggering request with a server error; the business writes made before the
log call (team row and counter increment) are however not rolled back, and
with a healthy sink the request succeeds. -/
theorem c3_log_failure_propagates (db : TeamDb)
    (h : db.tenant.current_teams_count < db.tenant.max_teams) :
    (teamViewSet_create db false).1 = CreateOutcome.ServerError
    ∧ (teamViewSet_create db false).2.teams_created = db.teams_created + 1
    ∧ (teamViewSet_create db false).2.tenant.current_teams_count =
        db.tenant.current_teams_count + 1
    ∧ (teamViewSet_create db false).2.logs = db.logs
    ∧ (teamViewSet_create db true).1 = CreateOutcome.Created := by
  have hn : ¬ db.tenant.current_teams_count ≥ db.tenant.max_teams :=
    not_le.mpr h
  simp [teamViewSet_create, log_activity, hn]

/-- C3 witness: the amended statement evaluated on the under-limit
fixture with a failing sink. -/
theorem c3_witness :
    (teamViewSet_create dbUnder false).1 = CreateOutcome.ServerError
    ∧ (teamViewSet_create dbUnder false).2.teams_created = 0 + 1 := by
  have h := c3_log_failure_propagates dbUnder (by decide)
  exact ⟨h.1, h.2.1⟩

/-- C4 counterexample: suspending the `PENDING` fixture tenant through the
suspend entry point does not fail with `InvalidTransition` — it sets
`status = SUSPENDED` and appends the reason to the notes. -/
theorem c4_counterexample :
    tenant0.status = "PENDING"
    ∧ (tenantViewSet_suspend tenant0 "PENDING tenant").status = "SUSPENDED"
    ∧ (tenantViewSet_suspend tenant0 "PENDING tenant").notes =
        some "Suspended: PENDING tenant" := by
  refine ⟨rfl, rfl, rfl⟩

/-- C4 (amended): the suspend path (`TenantViewSet.suspend` →
`Tenant.suspend`) has no status guard: from any status, `PENDING`
included, it sets `status = SUSPENDED` and appends the non-empty reason to
the tenant's notes; the `InvalidTransition`-style rejection of `PENDING`
tenants exists only on the separate `toggle_tenant_status` entry point,
which leaves the tenant unchanged. -/
theorem c4_suspend_unguarded (t : Tenant) (reason : String)
    (h : reason ≠ "") :
    (tenantViewSet_suspend t reason).status = "SUSPENDED"
    ∧ (tenantViewSet_suspend t reason).notes =
        (match t.notes with
         | some n => some (n ++ "\n\nSuspended: " ++ reason)
         | none => some ("Suspended: " ++ reason))
    ∧ (t.status = "PENDING" →
        toggle_tenant_status t = (some .InvalidTransition, t)) := by
  refine ⟨?_, ?_, ?_⟩
  · simp [tenantViewSet_suspend, Tenant.suspend, h]
  · simp [tenantViewSet_suspend, Tenant.suspend, h]
  · intro hp; simp [toggle_tenant_status, hp]

/-- C4 witness: the amended statement evaluated on the `PENDING` fixture
tenant. -/
theorem c4_witness :
    (tenantViewSet_suspend tenant0 "late invoice").status = "SUSPENDED"
    ∧ toggle_tenant_status tenant0 = (some .InvalidTransition, tenant0) := by
  have h := c4_suspend_unguarded tenant0 "late invoice" (by decide)
  exact ⟨h.1, h.2.2 rfl⟩

/-- Once the slug loop has switched to suffixed candidates, every later
candidate — and hence its result — has the form `base ++ "-" ++ n`. -/
theorem uniqueSlugLoop_suffix (base : String) (existing : List String) :
    ∀ (fuel counter k : Nat), ∃ m : Nat,
      uniqueSlugLoop base existing fuel (base ++ "-" ++ toString k) counter =
        base ++ "-" ++ toString m := by
  intro fuel
  induction fuel with
  | zero => exact fun counter k => ⟨k, rfl⟩
  | succ n ih =>
      intro counter k
      by_cases h : (base ++ "-" ++ toString k) ∈ existing
      · simpa [uniqueSlugLoop, h] using ih (counter + 1) counter
      · exact ⟨k, by simp [uniqueSlugLoop, h]⟩

/-- A suffixed slug is strictly longer than its base, hence distinct. -/
theorem suffixed_slug_ne_base (base : String) (m : Nat) :
    base ++ "-" ++ toString m ≠ base := by
  intro h
  have hlen := congrArg String.length h
  simp [String.length_append] at hlen
  have hone : "-".length = 1 := rfl
  omega

/-- C5 counterexample: creating a second tenant whose slugified name `acme`
is already registered does not fail — the serializer silently uniquifies the
slug to `acme-1` and creates the tenant. -/
theorem c5_counterexample :
    (tenantCreateSerializer_create ["acme"] "Acme" "acme").slug = "acme-1"
    ∧ (tenantCreateSerializer_create ["acme"] "Acme" "acme").slug ≠ "acme"
    ∧ (tenantCreateSerializer_create ["acme"] "Acme" "acme").status = "PENDING"
    ∧ (tenantCreateSerializer_create ["acme"] "Acme" "acme").is_approved = false := by
  refine ⟨rfl, by decide, rfl, rfl⟩

/-- C5 (amended): tenant signup never fails with a duplicate-slug error.
The tenant is always created with the model defaults `status = PENDING` and
`is_approved = false`; when the slugified name is unregistered it becomes
the slug unchanged, and when it is already registered the serializer's
uniquification loop produces a numerically suffixed slug distinct from the
requested one — a success with a modified slug rather than an error. -/
theorem c5_signup_uniquifies_slug (existing : List String)
    (name base : String) :
    (tenantCreateSerializer_create existing name base).status = "PENDING"
    ∧ (tenantCreateSerializer_create existing name base).is_approved = false
    ∧ (base ∉ existing →
        (tenantCreateSerializer_create existing name base).slug = base)
    ∧ (base ∈ existing → ∃ m : Nat,
        (tenantCreateSerializer_create existing name base).slug =
          base ++ "-" ++ toString m
        ∧ (tenantCreateSerializer_create existing name base).slug ≠ base) := by
  refine ⟨rfl, rfl, ?_, ?_⟩
  · intro h
    simp [tenantCreateSerializer_create, Tenant.mkDefault, uniqueSlug,
          uniqueSlugLoop, h]
  · intro h
    obtain ⟨m, hm⟩ := uniqueSlugLoop_suffix base existing existing.length 2 1
    refine ⟨m, ?_, ?_⟩
    · simpa [tenantCreateSerializer_create, Tenant.mkDefault, uniqueSlug,
             uniqueSlugLoop, h] using hm
    · have : (tenantCreateSerializer_create existing name base).slug =
          base ++ "-" ++ toString m := by
        simpa [tenantCreateSerializer_create, Tenant.mkDefault, uniqueSlug,
               uniqueSlugLoop, h] using hm
      rw [this]
      exact suffixed_slug_ne_base base m

/-- C5 witness: the amended statement evaluated on a registry already
holding `beta`. -/
theorem c5_witness :
    (tenantCreateSerializer_create ["beta"] "Beta" "beta").status = "PENDING"
    ∧ (tenantCreateSerializer_create ["beta"] "Beta" "beta").slug ≠ "beta" := by
  have h := c5_signup_uniquifies_slug ["beta"] "Beta" "beta"
  obtain ⟨m, _, hne⟩ := h.2.2.2 (by decide)
  exact ⟨h.1, hne⟩

/-- C6 counterexample: the claim requires the empty-notes rejection to fail
with `MissingReason` on every rejection entry point, but the REST
`PaymentViewSet.verify` action accepts blank notes: rejecting the pending
fixture payment with empty notes succeeds and marks it
`REJECTED`/`FAILED`. -/
theorem c6_counterexample :
    st0.payment.verification_status = "PENDING"
    ∧ (paymentViewSet_verify st0 7 "reject" "" 5).1 = none
    ∧ (paymentViewSet_verify st0 7 "reject" "" 5).2.payment.verification_status = "REJECTED"
    ∧ (paymentViewSet_verify st0 7 "reject" "" 5).2.payment.status = "FAILED" := by
  decide

/-- C6 (amended): the `MissingReason` guard exists only on the admin-panel
`reject_payment` entry point, where empty notes fail and change nothing and
non-empty notes set `REJECTED`/`FAILED` without touching tenant or
subscription; the REST `PaymentViewSet.verify` reject path applies the
rejection even with empty notes — and likewise never modifies the owning
tenant or subscription. -/
theorem c6_missing_reason_admin_only (st : VerifyState) (user : Nat)
    (notes : String) (now : Int)
    (h : st.payment.verification_status = "PENDING") :
    reject_payment st user "" now = (some .MissingReason, st)
    ∧ (notes ≠ "" →
        (reject_payment st user notes now).1 = none
        ∧ (reject_payment st user notes now).2.payment.verification_status = "REJECTED"
        ∧ (reject_payment st user notes now).2.payment.status = "FAILED"
        ∧ (reject_payment st user notes now).2.tenant = st.tenant
        ∧ (reject_payment st user notes now).2.subscription = st.subscription)
    ∧ (paymentViewSet_verify st user "reject" "" now).1 = none
    ∧ (paymentViewSet_verify st user "reject" "" now).2.payment.verification_status = "REJECTED"
    ∧ (paymentViewSet_verify st user "reject" "" now).2.tenant = st.tenant
    ∧ (paymentViewSet_verify st user "reject" "" now).2.subscription = st.subscription := by
  refine ⟨by simp [reject_payment, h], ?_, ?_, ?_, ?_, ?_⟩
  · intro hn
    refine ⟨?_, ?_, ?_, ?_, ?_⟩ <;>
      simp [reject_payment, h, hn, Payment.reject_verification]
  · simp [paymentViewSet_verify]
  · simp [paymentViewSet_verify, Payment.reject_verification]
  · simp [paymentViewSet_verify]
  · simp [paymentViewSet_verify]

/-- C6 witness: the amended statement evaluated on the pending fixture with
the reason `bad proof`. -/
theorem c6_witness :
    reject_payment st0 7 "" 5 = (some .MissingReason, st0)
    ∧ (reject_payment st0 7 "bad proof" 5).1 = none
    ∧ (reject_payment st0 7 "bad proof" 5).2.tenant = st0.tenant
    ∧ (reject_payment st0 7 "bad proof" 5).2.subscription = st0.subscription := by
  have h := c6_missing_reason_admin_only st0 7 "bad proof" 5 rfl
  exact ⟨h.1, (h.2.1 (by decide)).1, (h.2.1 (by decide)).2.2.2.1,
         (h.2.1 (by decide)).2.2.2.2⟩
